import Mathlib

/-!
Verification of the workflow classification, channel routing, context
accumulation, metrics parsing and HTTP-call orchestration logic of
`G1/workflow_orchestrator.py`.

Modelling conventions:
* Python floats are modelled as `Rat`; every score in the source is a small
  decimal literal, so the arithmetic is exact.
* Python dicts are modelled as insertion-ordered association lists
  (`List (String × _)`); assigning to an existing key replaces the value in
  place, assigning to a fresh key appends, exactly like CPython dicts.
* Wall-clock timestamps (`datetime.now()`) are irrelevant to every claim and
  are abstracted as constants or explicit parameters.
* Network round trips (`aiohttp` POSTs) are modelled by an oracle
  `Oracle : Nat → HTTPOutcome` giving the outcome of each successive request
  of a run; requests are issued strictly sequentially, so the call index is
  well defined.  A Python exception raised by subscripting a dict with a
  missing key (`KeyError`) is modelled with `Except PyExc`.
-/

/-- Values occurring in the JSON payloads and Python dicts of the
orchestrator.  `vDict` keeps insertion order, like a Python dict. -/
inductive PyVal where
  | vStr (s : String)
  | vNum (q : Rat)
  | vBool (b : Bool)
  | vDict (kvs : List (String × PyVal))
  | vList (xs : List PyVal)

/-- Python exceptions that the modelled code can raise. -/
inductive PyExc where
  | keyError (k : String)
deriving DecidableEq

/-- Lookup in an insertion-ordered association list (first binding wins;
keys are unique by construction of `alistSet`). -/
def alistFind {α : Type} : List (String × α) → String → Option α
  | [], _ => none
  | (k0, v) :: rest, k => if k0 = k then some v else alistFind rest k

/-- Python `d[k] = v`: replace in place when the key exists, append when it
is fresh (CPython dicts preserve the original insertion position). -/
def alistSet {α : Type} : List (String × α) → String → α → List (String × α)
  | [], k, v => [(k, v)]
  | (k0, v0) :: rest, k, v =>
    if k0 = k then (k0, v) :: rest else (k0, v0) :: alistSet rest k v

/-- Python `d[k]`: raises `KeyError` when the key is absent. -/
def pyIndex (kvs : List (String × PyVal)) (k : String) : Except PyExc PyVal :=
  match alistFind kvs k with
  | some v => Except.ok v
  | none => Except.error (PyExc.keyError k)

/-- Python `d.get(k, dflt)`. -/
def pyGetD (kvs : List (String × PyVal)) (k : String) (dflt : PyVal) : PyVal :=
  (alistFind kvs k).getD dflt

/-- Python truthiness of the values we manipulate. -/
def pyTruthy : PyVal → Bool
  | PyVal.vBool b => b
  | PyVal.vStr s => !s.isEmpty
  | PyVal.vNum q => !(q = 0)
  | PyVal.vDict kvs => !kvs.isEmpty
  | PyVal.vList xs => !xs.isEmpty

/-- Coercion of a JSON field expected to be free text.  Every claim only
exercises string `response` fields; a non-string field is collapsed to `""`,
mirroring that the gateway returns free text. -/
def strOfPyVal : PyVal → String
  | PyVal.vStr s => s
  | _ => ""

/-! ## Enumerations and the classification record (`workflow_orchestrator.py`
lines 28–68) -/

inductive RequirementType where
  | BUG_FIX | FEATURE_REQUEST | INFRASTRUCTURE | COMPLIANCE | MIGRATION | RESEARCH
deriving DecidableEq

inductive RequirementPriority where
  | CRITICAL | HIGH | MEDIUM | LOW
deriving DecidableEq

inductive WorkflowChannel where
  | FAST_TRACK | STANDARD | MEGA | RESEARCH
deriving DecidableEq

def typeValue : RequirementType → String
  | RequirementType.BUG_FIX => "bug_fix"
  | RequirementType.FEATURE_REQUEST => "feature_request"
  | RequirementType.INFRASTRUCTURE => "infrastructure"
  | RequirementType.COMPLIANCE => "compliance"
  | RequirementType.MIGRATION => "migration"
  | RequirementType.RESEARCH => "research"

def priorityValue : RequirementPriority → String
  | RequirementPriority.CRITICAL => "critical"
  | RequirementPriority.HIGH => "high"
  | RequirementPriority.MEDIUM => "medium"
  | RequirementPriority.LOW => "low"

def chanValue : WorkflowChannel → String
  | WorkflowChannel.FAST_TRACK => "fast_track"
  | WorkflowChannel.STANDARD => "standard"
  | WorkflowChannel.MEGA => "mega"
  | WorkflowChannel.RESEARCH => "research"

structure RequirementClassification where
  type : RequirementType
  priority : RequirementPriority
  complexity_score : Rat
  risk_score : Rat
  estimated_effort : String
  confidence : Rat
deriving DecidableEq

/-- Model of `WorkflowContext` (the fields the classifier and channel
selector receive; both ignore it entirely). -/
structure WorkflowCtx where
  workflow_id : String
  user_input : String
  classification : Option RequirementClassification
  metadata : List (String × PyVal)

/-! ## Keyword machinery of `_classify_requirement` (lines 563–621).
Python `word in input_lower` is contiguous-substring containment. -/

/-- Contiguous sublist (substring) test: `needle` occurs somewhere in the
second argument. -/
def isSubListOf (needle : List Char) : List Char → Bool
  | [] => needle.isEmpty
  | c :: cs => needle.isPrefixOf (c :: cs) || isSubListOf needle cs

/-- Python `str.lower()` on the code's ASCII keyword alphabet. -/
def lowerChars (s : String) : List Char := s.toList.map Char.toLower

def containsWord (il : List Char) (w : String) : Bool := isSubListOf w.toList il

/-- Python `any(word in input_lower for word in ws)`. -/
def anyWord (il : List Char) (ws : List String) : Bool := ws.any (containsWord il)

def kwBugFix : List String := ["fix", "bug", "error", "broken"]
def kwCompliance : List String := ["compliance", "hipaa", "gdpr", "audit"]
def kwMigration : List String := ["migrate", "migration", "upgrade"]
def kwInfrastructure : List String := ["infrastructure", "deployment", "server"]
def kwResearch : List String := ["research", "poc", "investigate"]
def kwCritical : List String := ["critical", "urgent", "emergency"]
def kwHigh : List String := ["high", "important", "soon"]
def kwLow : List String := ["low", "nice", "future"]
def kwComplexLow : List String := ["simple", "quick", "small"]
def kwComplexHigh : List String := ["complex", "large", "enterprise", "platform"]
def kwComplexVeryHigh : List String := ["microservices", "migration", "architecture"]
def kwDomainRisk : List String := ["patient", "financial", "security"]

/-- Source `DynamicWorkflowOrchestrator._classify_requirement` (lines 563–621):
keyword classification of the lower-cased input; the `context` argument is
never read.  The function is total — no code path raises. -/
def classifyRequirement (user_input : String) (context : WorkflowCtx) :
    RequirementClassification :=
  let il := lowerChars user_input
  let req_type :=
    if anyWord il kwBugFix then RequirementType.BUG_FIX
    else if anyWord il kwCompliance then RequirementType.COMPLIANCE
    else if anyWord il kwMigration then RequirementType.MIGRATION
    else if anyWord il kwInfrastructure then RequirementType.INFRASTRUCTURE
    else if anyWord il kwResearch then RequirementType.RESEARCH
    else RequirementType.FEATURE_REQUEST
  let priority :=
    if anyWord il kwCritical then RequirementPriority.CRITICAL
    else if anyWord il kwHigh then RequirementPriority.HIGH
    else if anyWord il kwLow then RequirementPriority.LOW
    else RequirementPriority.MEDIUM
  let complexity_score : Rat :=
    if anyWord il kwComplexLow then 2
    else if anyWord il kwComplexHigh then 8
    else if anyWord il kwComplexVeryHigh then 9
    else 3
  let risk_score : Rat :=
    if req_type = RequirementType.COMPLIANCE then 8
    else if anyWord il kwDomainRisk then 7
    else if req_type = RequirementType.BUG_FIX then 2
    else 3
  { type := req_type
    priority := priority
    complexity_score := complexity_score
    risk_score := risk_score
    estimated_effort := "auto-calculated"
    confidence := 4 / 5 }

/-- Source `DynamicWorkflowOrchestrator._select_workflow_channel` (lines 623–643);
the `context` argument is never read. -/
def selectWorkflowChannel (c : RequirementClassification) (context : WorkflowCtx) :
    WorkflowChannel :=
  if c.type = RequirementType.RESEARCH then WorkflowChannel.RESEARCH
  else if c.complexity_score ≤ 3 ∧ c.risk_score ≤ 3 ∧ c.type = RequirementType.BUG_FIX then
    WorkflowChannel.FAST_TRACK
  else if c.complexity_score ≥ 7 ∨
      c.type ∈ [RequirementType.MIGRATION, RequirementType.INFRASTRUCTURE] then
    WorkflowChannel.MEGA
  else WorkflowChannel.STANDARD

/-! ## Spec-side restatements (named after the spec text, for refinement
comparison with the code-derived definitions above) -/

/-- The decision table exactly as the spec words it (spec section 4.2). -/
def specChannelOf (c : RequirementClassification) : WorkflowChannel :=
  if c.type = RequirementType.RESEARCH then WorkflowChannel.RESEARCH
  else if c.complexity_score ≤ 3 ∧ c.risk_score ≤ 3 ∧ c.type = RequirementType.BUG_FIX then
    WorkflowChannel.FAST_TRACK
  else if c.complexity_score ≥ 7 ∨ c.type = RequirementType.MIGRATION ∨
      c.type = RequirementType.INFRASTRUCTURE then
    WorkflowChannel.MEGA
  else WorkflowChannel.STANDARD

/-- The spec's first-matching-category rule in the order bug-fix, compliance,
migration, infrastructure, research, else feature-request (spec section 4.1). -/
def specFirstMatchType (il : List Char) : RequirementType :=
  if anyWord il kwBugFix then RequirementType.BUG_FIX
  else if anyWord il kwCompliance then RequirementType.COMPLIANCE
  else if anyWord il kwMigration then RequirementType.MIGRATION
  else if anyWord il kwInfrastructure then RequirementType.INFRASTRUCTURE
  else if anyWord il kwResearch then RequirementType.RESEARCH
  else RequirementType.FEATURE_REQUEST

/-- Spec section 4.1: complexity assigned by literal keyword thresholds. -/
def specComplexityScore (il : List Char) : Rat :=
  if anyWord il kwComplexLow then 2
  else if anyWord il kwComplexHigh then 8
  else if anyWord il kwComplexVeryHigh then 9
  else 3

/-- Spec section 4.1: risk assigned by literal keyword/type thresholds, in
priority order compliance, domain word, bug-fix, default. -/
def specRiskScore (t : RequirementType) (il : List Char) : Rat :=
  if t = RequirementType.COMPLIANCE then 8
  else if anyWord il kwDomainRisk then 7
  else if t = RequirementType.BUG_FIX then 2
  else 3

/-- True when none of the classifier's keyword lists matches the lower-cased
text (the spec's "no match" failure mode). -/
def noKeywordHit (il : List Char) : Bool :=
  !(anyWord il kwBugFix || anyWord il kwCompliance || anyWord il kwMigration ||
    anyWord il kwInfrastructure || anyWord il kwResearch || anyWord il kwCritical ||
    anyWord il kwHigh || anyWord il kwLow || anyWord il kwComplexLow ||
    anyWord il kwComplexHigh || anyWord il kwComplexVeryHigh || anyWord il kwDomainRisk)

/-- A throwaway workflow context (the classifier and selector ignore it). -/
def w0 : WorkflowCtx := { workflow_id := "", user_input := "", classification := none, metadata := [] }

/-- C1: channel selection follows the spec's decision table in priority
order, for every classification tuple; in particular complexity 9 with type
migration routes to mega, and complexity 2, risk 2, type bug_fix routes to
fast_track. -/
theorem selectChannel_matches_decision_table :
    (∀ (c : RequirementClassification) (ctx : WorkflowCtx),
      selectWorkflowChannel c ctx = specChannelOf c) ∧
    (∀ ctx : WorkflowCtx,
      selectWorkflowChannel
        { type := RequirementType.MIGRATION, priority := RequirementPriority.MEDIUM,
          complexity_score := 9, risk_score := 3,
          estimated_effort := "auto-calculated", confidence := 4 / 5 } ctx =
        WorkflowChannel.MEGA) ∧
    (∀ ctx : WorkflowCtx,
      selectWorkflowChannel
        { type := RequirementType.BUG_FIX, priority := RequirementPriority.MEDIUM,
          complexity_score := 2, risk_score := 2,
          estimated_effort := "auto-calculated", confidence := 4 / 5 } ctx =
        WorkflowChannel.FAST_TRACK) := by
  refine ⟨fun c ctx => ?_, fun ctx => rfl, fun ctx => rfl⟩
  simp only [selectWorkflowChannel, specChannelOf, List.mem_cons,
    List.mem_singleton, List.not_mem_nil, or_false]

/-- C2: the classifier lower-cases the text (its result depends on the input
only through the lower-cased character sequence), assigns the type as the
first matching keyword category in the order bug-fix, compliance, migration,
infrastructure, research, and when no keyword list matches returns the
default feature_request / medium / constant-score record.  The embedding is
a total function, so no input raises. -/
theorem classifier_first_match_and_default (s s' : String) (ctx ctx' : WorkflowCtx) :
    (lowerChars s = lowerChars s' →
      classifyRequirement s ctx = classifyRequirement s' ctx') ∧
    (classifyRequirement s ctx).type = specFirstMatchType (lowerChars s) ∧
    (noKeywordHit (lowerChars s) = true →
      classifyRequirement s ctx =
        { type := RequirementType.FEATURE_REQUEST, priority := RequirementPriority.MEDIUM,
          complexity_score := 3, risk_score := 3,
          estimated_effort := "auto-calculated", confidence := 4 / 5 }) := by
  refine ⟨fun h => ?_, rfl, fun h => ?_⟩
  · simp only [classifyRequirement, h]
  · simp only [noKeywordHit, Bool.not_eq_true', Bool.or_eq_false_iff] at h
    obtain ⟨⟨⟨⟨⟨⟨⟨⟨⟨⟨⟨h1, h2⟩, h3⟩, h4⟩, h5⟩, h6⟩, h7⟩, h8⟩, h9⟩, h10⟩, h11⟩, h12⟩ := h
    simp only [classifyRequirement, h1, h2, h3, h4, h5, h6, h7, h8, h9, h10, h11, h12]
    rfl

/-- Witness for C2 at concrete inputs: "hello world" matches no keyword list
and classifies to the default record, and classification is insensitive to
letter case. -/
theorem classifier_first_match_and_default_witness :
    classifyRequirement "hello world" w0 =
      { type := RequirementType.FEATURE_REQUEST, priority := RequirementPriority.MEDIUM,
        complexity_score := 3, risk_score := 3,
        estimated_effort := "auto-calculated", confidence := 4 / 5 } ∧
    classifyRequirement "hello world" w0 = classifyRequirement "HELLO World" w0 :=
  ⟨(classifier_first_match_and_default "hello world" "hello world" w0 w0).2.2 (by decide),
   (classifier_first_match_and_default "hello world" "HELLO World" w0 w0).1 (by decide)⟩

/-- C7: classification is a pure function of the input text alone — the
workflow-context argument (the only other state the function receives) never
influences the resulting tuple, so two runs on the same text agree. -/
theorem classification_context_independent (s : String) (c1 c2 : WorkflowCtx) :
    classifyRequirement s c1 = classifyRequirement s c2 := rfl

/-- C8: complexity and risk scores are assigned by the literal keyword
thresholds of the spec — 2 / 8 / 9 / 3 for the size-word tiers and
8 / 7 / 2 / 3 for the compliance / domain-word / bug-fix / default tiers —
with every coefficient a literal constant. -/
theorem scores_literal_thresholds (s : String) (ctx : WorkflowCtx) :
    (classifyRequirement s ctx).complexity_score = specComplexityScore (lowerChars s) ∧
    (classifyRequirement s ctx).risk_score =
      specRiskScore (classifyRequirement s ctx).type (lowerChars s) := by
  exact ⟨rfl, rfl⟩

/-! ## `WorkflowContextManager` (lines 84–132) -/

/-- Python `s[:k] + "..." if len(s) > k else s`. -/
def truncTo (k : Nat) (s : String) : String :=
  if s.length > k then String.mk (s.toList.take k) ++ "..." else s

/-- One entry of `self.persona_outputs`. -/
structure OutputEntry where
  output : String
  timestamp : String
  metadata : List (String × PyVal)

/-- One entry of `self.context_history`. -/
structure HistEntry where
  persona : String
  output : String
  timestamp : String

/-- State of a `WorkflowContextManager`. -/
structure ContextMgr where
  workflow_context : List (String × PyVal)
  persona_outputs : List (String × OutputEntry)
  context_history : List HistEntry

def emptyContextMgr : ContextMgr :=
  { workflow_context := [], persona_outputs := [], context_history := [] }

/-- Source `WorkflowContextManager.add_persona_output` (lines 92–104).  `now` stands
for the `datetime.now().isoformat()` reads. -/
def addPersonaOutput (m : ContextMgr) (persona output : String)
    (metadata : List (String × PyVal)) (now : String) : ContextMgr :=
  { workflow_context := alistSet m.workflow_context (persona ++ "_output") (PyVal.vStr output)
    persona_outputs := alistSet m.persona_outputs persona
      { output := output, timestamp := now, metadata := metadata }
    context_history := m.context_history ++
      [{ persona := persona, output := truncTo 200 output, timestamp := now }] }

/-- Arguments of one `add_persona_output` call. -/
structure AddCall where
  persona : String
  output : String
  metadata : List (String × PyVal)
  now : String

/-- A sequence of `add_persona_output` calls, in order. -/
def runAddCalls (m : ContextMgr) : List AddCall → ContextMgr
  | [] => m
  | c :: cs => runAddCalls (addPersonaOutput m c.persona c.output c.metadata c.now) cs

theorem alistSet_fresh {α : Type} (kvs : List (String × α)) (k : String) (v : α)
    (h : k ∉ kvs.map Prod.fst) : alistSet kvs k v = kvs ++ [(k, v)] := by
  induction kvs with
  | nil => rfl
  | cons kv rest ih =>
    simp only [List.map_cons, List.mem_cons] at h
    push_neg at h
    simp only [alistSet, List.cons_append]
    rw [if_neg (fun he => h.1 he.symm), ih h.2]

theorem alistFind_set_ne {α : Type} (kvs : List (String × α)) (k q : String) (v : α)
    (h : q ≠ k) : alistFind (alistSet kvs k v) q = alistFind kvs q := by
  induction kvs with
  | nil =>
    have hkq : ¬(k = q) := fun he => h he.symm
    simp only [alistSet, alistFind, if_neg hkq]
  | cons kv rest ih =>
    obtain ⟨k0, v0⟩ := kv
    by_cases hk : k0 = k
    · have hkq : k0 ≠ q := by rw [hk]; exact fun he => h he.symm
      simp only [alistSet, if_pos hk, alistFind, if_neg hkq]
    · simp only [alistSet, if_neg hk, alistFind]
      by_cases hq : k0 = q
      · simp only [if_pos hq]
      · simp only [if_neg hq, ih]

theorem runAddCalls_keys (cs : List AddCall) :
    ∀ m : ContextMgr, (cs.map AddCall.persona).Nodup →
      (∀ c ∈ cs, c.persona ∉ m.persona_outputs.map Prod.fst) →
      (runAddCalls m cs).persona_outputs.map Prod.fst =
        m.persona_outputs.map Prod.fst ++ cs.map AddCall.persona := by
  induction cs with
  | nil => intro m _ _; simp [runAddCalls]
  | cons c rest ih =>
    intro m hnd hfresh
    simp only [List.map_cons, List.nodup_cons] at hnd
    have hc : c.persona ∉ m.persona_outputs.map Prod.fst :=
      hfresh c (List.mem_cons_self c rest)
    have hkeys : (addPersonaOutput m c.persona c.output c.metadata c.now).persona_outputs.map
        Prod.fst = m.persona_outputs.map Prod.fst ++ [c.persona] := by
      simp only [addPersonaOutput, alistSet_fresh _ _ _ hc, List.map_append, List.map_cons,
        List.map_nil]
    have hrest : ∀ c' ∈ rest, c'.persona ∉
        (addPersonaOutput m c.persona c.output c.metadata c.now).persona_outputs.map Prod.fst := by
      intro c' hc' hmem
      rw [hkeys] at hmem
      rcases List.mem_append.mp hmem with hmem | hmem
      · exact hfresh c' (List.mem_cons_of_mem c hc') hmem
      · rcases List.mem_singleton.mp hmem with he
        exact hnd.1 (he ▸ List.mem_map_of_mem AddCall.persona hc')
    rw [runAddCalls, ih _ hnd.2 hrest, hkeys]
    simp

/-- C4 (amended): for a sequence of `add_persona_output` calls with pairwise
distinct persona names, exactly N entries exist afterwards, keyed by the
persona names in call order, and a call for one persona never overwrites or
removes the entry of a distinct persona name. -/
theorem context_accumulator_distinct_names (cs : List AddCall)
    (hnd : (cs.map AddCall.persona).Nodup) :
    (runAddCalls emptyContextMgr cs).persona_outputs.map Prod.fst =
      cs.map AddCall.persona ∧
    (runAddCalls emptyContextMgr cs).persona_outputs.length = cs.length ∧
    (∀ (m : ContextMgr) (p out now : String) (md : List (String × PyVal)) (q : String),
      q ≠ p →
      alistFind (addPersonaOutput m p out md now).persona_outputs q =
        alistFind m.persona_outputs q) := by
  have hkeys := runAddCalls_keys cs emptyContextMgr hnd (by intro c _ h; simp [emptyContextMgr] at h)
  simp only [emptyContextMgr, List.map_nil, List.nil_append] at hkeys
  refine ⟨hkeys, ?_, ?_⟩
  · have := congrArg List.length hkeys
    simpa using this
  · intro m p out now md q hq
    exact alistFind_set_ne m.persona_outputs p q _ hq

/-- Witness for C4 (amended) at a concrete call sequence with two distinct
persona names. -/
theorem context_accumulator_distinct_names_witness :
    (runAddCalls emptyContextMgr
      [{ persona := "developer", output := "design", metadata := [], now := "t1" },
       { persona := "tester", output := "plan", metadata := [], now := "t2" }]).persona_outputs.map
        Prod.fst = ["developer", "tester"] :=
  (context_accumulator_distinct_names
    [{ persona := "developer", output := "design", metadata := [], now := "t1" },
     { persona := "tester", output := "plan", metadata := [], now := "t2" }]
    (by decide)).1

/-- C4 counterexample: two successful `add_persona_output` calls that reuse
the same persona name leave exactly one entry (the second call overwrites the
first), so "after N successful calls exactly N entries exist" fails at N = 2;
the stored output is the later one. -/
theorem context_accumulator_duplicate_overwrite :
    (runAddCalls emptyContextMgr
      [{ persona := "developer", output := "first", metadata := [], now := "t1" },
       { persona := "developer", output := "second", metadata := [], now := "t2" }]).persona_outputs.length
        = 1 ∧
    (alistFind (runAddCalls emptyContextMgr
      [{ persona := "developer", output := "first", metadata := [], now := "t1" },
       { persona := "developer", output := "second", metadata := [], now := "t2" }]).persona_outputs
      "developer").map OutputEntry.output = some "second" := by
  constructor <;> rfl

/-! ## `MetricsCalculator._parse_metric_response` (lines 438–461).
The regex `(?:score|rating)[:\s]+([0-9]+\.?[0-9]*)` with `re.IGNORECASE` is
implemented as a leftmost-position scanner.  The character classes `[:\s]`
and `[0-9]` are disjoint, so the greedy matcher below is exact. -/

/-- ASCII members of Python's `\s` class. -/
def isPySpace (c : Char) : Bool :=
  c = ' ' || c = '\t' || c = '\n' || c = '\r' || c = '\x0b' || c = '\x0c'

/-- Case-insensitive literal-keyword match at the start of the text
(`re.IGNORECASE`; keywords are given lower-case). -/
def ciKeyAt : List Char → List Char → Bool
  | [], _ => true
  | _ :: _, [] => false
  | k :: ks, c :: cs => (c.toLower = k) && ciKeyAt ks cs

/-- Regex tail `[:\s]+([0-9]+\.?[0-9]*)` immediately after a matched keyword; returns
the captured group. -/
def matchNumGroup (cs : List Char) : Option (List Char) :=
  let seps := cs.takeWhile (fun c => c = ':' || isPySpace c)
  if seps.isEmpty then none
  else
    let r1 := cs.drop seps.length
    let digs := r1.takeWhile Char.isDigit
    if digs.isEmpty then none
    else
      let r2 := r1.drop digs.length
      match r2 with
      | '.' :: r3 => some (digs ++ '.' :: r3.takeWhile Char.isDigit)
      | _ => some digs

/-- Try each alternation keyword at the current position. -/
def matchPatternAt (kws : List (List Char)) (cs : List Char) : Option (List Char) :=
  match kws with
  | [] => none
  | k :: rest =>
    if ciKeyAt k cs then
      match matchNumGroup (cs.drop k.length) with
      | some g => some g
      | none => matchPatternAt rest cs
    else matchPatternAt rest cs

/-- Python `re.search`: scan positions left to right, first full match wins. -/
def searchPattern (kws : List (List Char)) : List Char → Option (List Char)
  | [] => none
  | c :: cs =>
    match matchPatternAt kws (c :: cs) with
    | some g => some g
    | none => searchPattern kws cs

/-- The source pattern `(?:score|rating)[:\s]+([0-9]+\.?[0-9]*)`. -/
def searchScoreRating (cs : List Char) : Option (List Char) :=
  searchPattern ["score".toList, "rating".toList] cs

/-- The spec's narrower pattern `score[:\s]+<number>` (no `rating`
alternative), used to state the claim. -/
def searchScoreOnly (cs : List Char) : Option (List Char) :=
  searchPattern ["score".toList] cs

def digitsVal (ds : List Char) : Nat :=
  ds.foldl (fun n c => 10 * n + (c.toNat - 48)) 0

/-- Python `float` applied to the captured group (digits, optional dot,
digits); exact because the group is a finite decimal. -/
def groupToRat (g : List Char) : Rat :=
  let ip := g.takeWhile Char.isDigit
  let rest := g.drop ip.length
  let fp := match rest with
    | '.' :: fs => fs.takeWhile Char.isDigit
    | _ => []
  (digitsVal ip : Rat) + (digitsVal fp : Rat) / (10 : Rat) ^ fp.length

/-- The structured dict built by `_parse_metric_response`; `calculated_at`
abstracts the wall-clock read. -/
structure MetricEntry where
  score : Rat
  assessment : String
  insights : List String
  calculated_at : String
  metric_type : String
deriving DecidableEq

/-- Source `MetricsCalculator._parse_metric_response` (lines 438–461).  The returned
score is `min(extracted, 10.0)`, written as the equivalent conditional. -/
def parseMetricResponse (response metric_type : String) : MetricEntry :=
  let score : Rat :=
    match searchScoreRating response.toList with
    | some g => groupToRat g
    | none => 5
  let low := lowerChars response
  let insights :=
    (if containsWord low "improvement" then ["improvement_opportunities_identified"] else []) ++
    (if containsWord low "excellent" || containsWord low "high" then
      ["strong_performance_indicators"] else []) ++
    (if containsWord low "concern" || containsWord low "risk" then
      ["attention_required"] else [])
  { score := if score ≤ 10 then score else 10
    assessment := truncTo 200 response
    insights := insights
    calculated_at := ""
    metric_type := metric_type }

/-- C5 (amended): the parser extracts the first decimal number following
`score` or `rating` (case-insensitively, after one or more colon/whitespace
characters), clamps it to at most 10.0, and returns the literal default 5.0
exactly when neither pattern occurs in the reply. -/
theorem parse_metric_score_characterization (r t : String) :
    (searchScoreRating r.toList = none → (parseMetricResponse r t).score = 5) ∧
    (∀ g, searchScoreRating r.toList = some g →
      (parseMetricResponse r t).score =
        if groupToRat g ≤ 10 then groupToRat g else 10) ∧
    (parseMetricResponse r t).metric_type = t := by
  refine ⟨fun h => ?_, fun g h => ?_, rfl⟩
  · simp only [parseMetricResponse, h]
    norm_num
  · simp only [parseMetricResponse, h]

theorem groupToRat_85 : groupToRat ("8.5".toList) = 17 / 2 := by
  show ((8 : Nat) : Rat) + ((5 : Nat) : Rat) / (10 : Rat) ^ (1 : Nat) = 17 / 2
  norm_num

theorem groupToRat_7 : groupToRat ['7'] = 7 := by
  show ((7 : Nat) : Rat) + ((0 : Nat) : Rat) / (10 : Rat) ^ (0 : Nat) = 7
  norm_num

theorem groupToRat_12 : groupToRat ['1', '2'] = 12 := by
  show ((12 : Nat) : Rat) + ((0 : Nat) : Rat) / (10 : Rat) ^ (0 : Nat) = 12
  norm_num

/-- Witness for C5 (amended) at concrete replies. -/
theorem parse_metric_score_characterization_witness :
    (parseMetricResponse "no numbers here" "functionality").score = 5 ∧
    (parseMetricResponse "Score: 8.5" "performance").score = 17 / 2 := by
  constructor
  · exact (parse_metric_score_characterization "no numbers here" "functionality").1 (by decide)
  · have h := (parse_metric_score_characterization "Score: 8.5" "performance").2.1
      ("8.5".toList) (by decide)
    rw [h, groupToRat_85]
    norm_num

/-- C5 counterexample: the reply "rating: 7" contains no `score[:\s]+<number>`
pattern, yet the parser returns 7.0 rather than the claimed default 5.0
(the regex also accepts `rating`); and for "score: 12" the returned score is
the clamped 10.0, not the extracted 12.0. -/
theorem parse_metric_rating_and_clamp_cex :
    searchScoreOnly ("rating: 7".toList) = none ∧
    (parseMetricResponse "rating: 7" "functionality").score = 7 ∧
    (parseMetricResponse "score: 12" "performance").score = 10 := by
  refine ⟨by decide, ?_, ?_⟩
  · have hs : searchScoreRating ("rating: 7".toList) = some ['7'] := by decide
    simp only [parseMetricResponse, hs, groupToRat_7]
    norm_num
  · have hs : searchScoreRating ("score: 12".toList) = some ['1', '2'] := by decide
    simp only [parseMetricResponse, hs, groupToRat_12]
    norm_num

/-! ## The HTTP call layer (`PersonaAPIClient`, lines 152–313).
Each network round trip is abstracted by an oracle indexed by the position of
the request in the run's strictly sequential call order: `HTTPOutcome.ok`
is an HTTP 200 with the decoded JSON body, `httpError` a non-200 status,
and `exc` any exception raised during the request. -/

inductive HTTPOutcome where
  | ok (json : List (String × PyVal))
  | httpError (status : Nat) (body : String)
  | exc (msg : String)

def isOkOutcome : HTTPOutcome → Bool
  | HTTPOutcome.ok _ => true
  | _ => false

def Oracle : Type := Nat → HTTPOutcome

/-- What one `call_persona` invocation produces: the returned dict, the
(possibly updated) context manager, the index of the next network call, and
the personas actually called (in order). -/
structure CallRet where
  result : List (String × PyVal)
  cmgr : Option ContextMgr
  next : Nat
  log : List String

/-- Source `PersonaAPIClient.call_persona` (lines 253–313).  On HTTP 200 the success
dict carries the keys `success`, `response`, `persona`, `execution_time`,
`raw_result` — and no `persona_id` key; on a non-200 status or an exception
the failure dict carries `success`, `error`, `persona`.  When a context
manager is supplied, a 200 response is appended to it via
`add_persona_output` (the `datetime.now()` reads are abstracted as `""`). -/
def callPersona (o : Oracle) (n : Nat) (persona : String) (cmgr : Option ContextMgr) :
    CallRet :=
  match o n with
  | HTTPOutcome.ok json =>
    let respText := pyGetD json "response" (PyVal.vStr "")
    let cm2 := match cmgr with
      | some m => some (addPersonaOutput m persona (strOfPyVal respText)
          [("execution_time", pyGetD json "execution_time" (PyVal.vNum 0)),
           ("timestamp", PyVal.vStr "")] "")
      | none => none
    { result := [("success", PyVal.vBool true), ("response", respText),
        ("persona", pyGetD json "persona" (PyVal.vStr persona)),
        ("execution_time", pyGetD json "execution_time" (PyVal.vNum 0)),
        ("raw_result", PyVal.vDict json)]
      cmgr := cm2, next := n + 1, log := [persona] }
  | HTTPOutcome.httpError status body =>
    { result := [("success", PyVal.vBool false),
        ("error", PyVal.vStr ("HTTP " ++ toString status ++ ": " ++ body)),
        ("persona", PyVal.vStr persona)]
      cmgr := cmgr, next := n + 1, log := [persona] }
  | HTTPOutcome.exc msg =>
    { result := [("success", PyVal.vBool false), ("error", PyVal.vStr msg),
        ("persona", PyVal.vStr persona)]
      cmgr := cmgr, next := n + 1, log := [persona] }

/-- Source `PersonaAPIClient.validate_and_route_request` (lines 202–251): call the
interface validator; if its result is unsuccessful return it (the target is
never called); otherwise call the queue manager, discard its result, and
call the target persona.  The prompt strings are payload to the opaque
external service and are absorbed into the oracle. -/
def validateAndRouteRequest (o : Oracle) (n : Nat) (persona : String)
    (cmgr : Option ContextMgr) : Except PyExc CallRet :=
  let v := callPersona o n "interface_validator" cmgr
  match pyIndex v.result "success" with
  | Except.error e => Except.error e
  | Except.ok sv =>
    if pyTruthy sv then
      let r := callPersona o v.next "queue_manager" v.cmgr
      let t := callPersona o r.next persona r.cmgr
      Except.ok { result := t.result, cmgr := t.cmgr, next := t.next,
                  log := v.log ++ r.log ++ t.log }
    else Except.ok v

/-- Model of the `PersonaResult` dataclass (lines 71–81).  `persona_id` is
kept as the raw Python value that the constructor receives;
`processing_time` (a wall-clock difference) is abstracted as 0. -/
structure PersonaResult where
  persona_id : PyVal
  persona_name : String
  success : Bool
  output_data : List (String × PyVal)
  confidence : Rat
  processing_time : Rat
  metadata : List (String × PyVal)
  validated : Bool

/-- Source `DynamicWorkflowOrchestrator._call_persona_with_validation`
(lines 924–976).  Non-interface personas go through validation and routing.
In the success branch the code subscripts `api_result["persona_id"]`, a key
the success dict never contains, so that branch raises `KeyError`. -/
def callPersonaWithValidation (o : Oracle) (n : Nat) (persona phase : String) :
    Except PyExc (PersonaResult × Nat × List String) :=
  let step :=
    if persona = "interface_validator" ∨ persona = "queue_manager" then
      Except.ok (callPersona o n persona none)
    else validateAndRouteRequest o n persona none
  match step with
  | Except.error e => Except.error e
  | Except.ok c =>
    match pyIndex c.result "success" with
    | Except.error e => Except.error e
    | Except.ok sv =>
      if pyTruthy sv then
        match pyIndex c.result "persona_id" with
        | Except.error e => Except.error e
        | Except.ok pid =>
          match pyIndex c.result "response" with
          | Except.error e => Except.error e
          | Except.ok resp =>
            Except.ok ({ persona_id := pid, persona_name := persona, success := true,
                         output_data := [("response", resp)], confidence := 4 / 5,
                         processing_time := 0,
                         metadata := [("phase", PyVal.vStr phase),
                                      ("validated", PyVal.vBool true)],
                         validated := true }, c.next, c.log)
      else
        match pyIndex c.result "error" with
        | Except.error e => Except.error e
        | Except.ok errv =>
          Except.ok ({ persona_id := pyGetD c.result "persona_id" (PyVal.vStr "unknown"),
                       persona_name := persona, success := false,
                       output_data := [("error", errv)], confidence := 0,
                       processing_time := 0,
                       metadata := [("phase", PyVal.vStr phase),
                                    ("validated", PyVal.vBool false)],
                       validated := false }, c.next, c.log)

/-! ## Workflow step sequences (lines 645–922).  Each entry is the persona
called by `_call_persona_with_validation` and the phase label it is given;
the flattened order matches the source exactly. -/

/-- Steps of `_execute_standard_workflow` (lines 824–870). -/
def standardSteps : List (String × String) :=
  [("risk_assessor", "risk_assessment"), ("team_manager", "team_management"),
   ("developer", "development"), ("tester", "testing"), ("operations", "operations")]

/-- Channel-specific core steps (`_execute_fast_track_workflow`,
`_execute_standard_workflow`, `_execute_mega_workflow`,
`_execute_research_workflow`). -/
def coreSteps : WorkflowChannel → List (String × String)
  | WorkflowChannel.FAST_TRACK =>
    [("developer", "fast_track_development"), ("tester", "fast_track_testing")]
  | WorkflowChannel.STANDARD => standardSteps
  | WorkflowChannel.MEGA =>
    [("program_manager", "program_management"),
     ("mind_engine_coordinator", "mind_engine")] ++ standardSteps
  | WorkflowChannel.RESEARCH =>
    [("developer", "research_development"),
     ("mind_engine_coordinator", "research_methodology")]

/-- The testing, deployment and monitoring phases run for every channel
(`_execute_testing_phase`, `_execute_deployment_phase`,
`_execute_monitoring_phase`, lines 682–798). -/
def phaseSteps : List (String × String) :=
  [("tester", "quality_assurance"), ("infrastructure_engineer", "infrastructure_automation"),
   ("release_engineer", "cicd_automation"), ("devops_specialist", "monitoring_operations")]

def workflowSteps (ch : WorkflowChannel) : List (String × String) :=
  coreSteps ch ++ phaseSteps

/-- Sequential execution of a list of workflow steps; a raised exception
propagates (there is no try/except between `_execute_workflow_with_phases`
and `process_requirement`), a returned `PersonaResult` — failed or not — is
appended and execution continues. -/
def runWorkflowSteps (o : Oracle) (n : Nat) :
    List (String × String) → Except PyExc (List PersonaResult × Nat × List String)
  | [] => Except.ok ([], n, [])
  | (p, ph) :: rest =>
    match callPersonaWithValidation o n p ph with
    | Except.error e => Except.error e
    | Except.ok (r, n1, l1) =>
      match runWorkflowSteps o n1 rest with
      | Except.error e => Except.error e
      | Except.ok (rs, n2, l2) => Except.ok (r :: rs, n2, l1 ++ l2)

/-- Source `_execute_workflow_with_phases` (lines 645–680): channel core then the
three fixed phases. -/
def executeWorkflowWithPhases (o : Oracle) (n : Nat) (ch : WorkflowChannel) :
    Except PyExc (List PersonaResult × Nat × List String) :=
  runWorkflowSteps o n (workflowSteps ch)

/-! ## `MetricsCalculator.calculate_all_metrics` (lines 322–436) -/

structure MetricsRet where
  metrics : List (String × MetricEntry)
  next : Nat
  log : List String

/-- One metric persona call: always issued; its parsed entry is added to the
map only when the call succeeded. -/
def metricOf (o : Oracle) (n : Nat) (endpoint mname : String) :
    Except PyExc (List (String × MetricEntry)) :=
  let r := callPersona o n endpoint none
  match pyIndex r.result "success" with
  | Except.error e => Except.error e
  | Except.ok sv =>
    if pyTruthy sv then
      match pyIndex r.result "response" with
      | Except.error e => Except.error e
      | Except.ok resp => Except.ok [(mname, parseMetricResponse (strOfPyVal resp) mname)]
    else Except.ok []

/-- Source `calculate_all_metrics`: the four metric personas are called in the fixed
order functionality, performance, stability, scalability; the serialized
`workflow_results` only feed the prompt text (absorbed into the oracle). -/
def calculateAllMetrics (o : Oracle) (n : Nat) (workflow_results : List PersonaResult) :
    Except PyExc MetricsRet :=
  match metricOf o n "functionality_metrics" "functionality" with
  | Except.error e => Except.error e
  | Except.ok m1 =>
    match metricOf o (n + 1) "performance_metrics" "performance" with
    | Except.error e => Except.error e
    | Except.ok m2 =>
      match metricOf o (n + 2) "stability_metrics" "stability" with
      | Except.error e => Except.error e
      | Except.ok m3 =>
        match metricOf o (n + 3) "scalability_metrics" "scalability" with
        | Except.error e => Except.error e
        | Except.ok m4 =>
          Except.ok { metrics := m1 ++ m2 ++ m3 ++ m4, next := n + 4,
                      log := ["functionality_metrics", "performance_metrics",
                              "stability_metrics", "scalability_metrics"] }

/-! ## `DynamicWorkflowOrchestrator.process_requirement` (lines 472–561) -/

def excText : PyExc → String
  | PyExc.keyError k => k

def serializeResult (r : PersonaResult) : PyVal :=
  PyVal.vDict [("persona_id", r.persona_id), ("persona_name", PyVal.vStr r.persona_name),
    ("success", PyVal.vBool r.success), ("output_data", PyVal.vDict r.output_data),
    ("confidence", PyVal.vNum r.confidence),
    ("processing_time", PyVal.vNum r.processing_time),
    ("metadata", PyVal.vDict r.metadata), ("validated", PyVal.vBool r.validated)]

def classificationVal (c : RequirementClassification) : PyVal :=
  PyVal.vDict [("type", PyVal.vStr (typeValue c.type)),
    ("priority", PyVal.vStr (priorityValue c.priority)),
    ("complexity_score", PyVal.vNum c.complexity_score),
    ("risk_score", PyVal.vNum c.risk_score),
    ("estimated_effort", PyVal.vStr c.estimated_effort),
    ("confidence", PyVal.vNum c.confidence)]

def metricVal (e : MetricEntry) : PyVal :=
  PyVal.vDict [("score", PyVal.vNum e.score), ("assessment", PyVal.vStr e.assessment),
    ("insights", PyVal.vList (e.insights.map PyVal.vStr)),
    ("calculated_at", PyVal.vStr e.calculated_at),
    ("metric_type", PyVal.vStr e.metric_type)]

/-- The `WorkflowContext` built at the top of `process_requirement`
(`uuid` and timestamp abstracted). -/
def initialWorkflowCtx (input : String) (context : List (String × PyVal)) : WorkflowCtx :=
  { workflow_id := "", user_input := input, classification := none, metadata := context }

/-- Source `process_requirement` (lines 472–561): classify, call the requirement
concierge, select the channel, execute the phases, compute metrics; the
whole body sits in a try/except, so any raised exception is converted into a
`success: False` dict and nothing propagates to the caller. -/
def processRequirement (o : Oracle) (input : String)
    (context : List (String × PyVal)) : List (String × PyVal) :=
  let ctx0 := initialWorkflowCtx input context
  let classification := classifyRequirement input ctx0
  let channel := selectWorkflowChannel classification ctx0
  let run : Except PyExc (List PersonaResult × List (String × MetricEntry)) :=
    match callPersonaWithValidation o 0 "requirement_concierge" "requirement_analysis" with
    | Except.error e => Except.error e
    | Except.ok (r0, n1, _) =>
      match executeWorkflowWithPhases o n1 channel with
      | Except.error e => Except.error e
      | Except.ok (rs, n2, _) =>
        match calculateAllMetrics o n2 (r0 :: rs) with
        | Except.error e => Except.error e
        | Except.ok m => Except.ok (r0 :: rs, m.metrics)
  match run with
  | Except.ok (results, metrics) =>
    [("workflow_id", PyVal.vStr ""), ("input", PyVal.vStr input),
     ("context", PyVal.vDict context),
     ("classification", classificationVal classification),
     ("selected_channel", PyVal.vStr (chanValue channel)),
     ("results", PyVal.vList (results.map serializeResult)),
     ("metrics", PyVal.vDict (metrics.map (fun kv => (kv.1, metricVal kv.2)))),
     ("total_time", PyVal.vNum 0), ("success", PyVal.vBool true),
     ("execution_method", PyVal.vStr "dynamic_workflow_with_complete_personas")]
  | Except.error e =>
    [("workflow_id", PyVal.vStr ""), ("input", PyVal.vStr input),
     ("context", PyVal.vDict context), ("error", PyVal.vStr (excText e)),
     ("total_time", PyVal.vNum 0), ("success", PyVal.vBool false),
     ("execution_method", PyVal.vStr "dynamic_workflow_with_complete_personas")]

/-! ## Helper lemmas about the call layer -/

theorem callPersona_next (o : Oracle) (n : Nat) (p : String) (c : Option ContextMgr) :
    (callPersona o n p c).next = n + 1 := by
  cases h : o n <;> simp [callPersona, h]

theorem callPersona_log (o : Oracle) (n : Nat) (p : String) (c : Option ContextMgr) :
    (callPersona o n p c).log = [p] := by
  cases h : o n <;> simp [callPersona, h]

theorem callPersona_cmgr_none (o : Oracle) (n : Nat) (p : String) :
    (callPersona o n p none).cmgr = none := by
  cases h : o n <;> simp [callPersona, h]

theorem callPersona_congr (o o' : Oracle) (n : Nat) (p : String) (c : Option ContextMgr)
    (h : o n = o' n) : callPersona o n p c = callPersona o' n p c := by
  simp [callPersona, h]

/-- On a non-200 status or an exception the produced dict is exactly the
failure dict of `call_persona` (for some error message), the context manager
is untouched, and one network call was consumed. -/
theorem callPersona_fail_shape (o : Oracle) (n : Nat) (p : String) (c : Option ContextMgr)
    (h : isOkOutcome (o n) = false) :
    ∃ msg, callPersona o n p c =
      { result := [("success", PyVal.vBool false), ("error", PyVal.vStr msg),
                   ("persona", PyVal.vStr p)],
        cmgr := c, next := n + 1, log := [p] } := by
  cases ho : o n with
  | ok json => rw [ho] at h; simp [isOkOutcome] at h
  | httpError status body =>
    exact ⟨"HTTP " ++ toString status ++ ": " ++ body, by simp [callPersona, ho]⟩
  | exc msg => exact ⟨msg, by simp [callPersona, ho]⟩

/-- On HTTP 200 (with no context manager) the produced dict is exactly the
success dict of `call_persona`. -/
theorem callPersona_ok_shape (o : Oracle) (n : Nat) (p : String)
    (json : List (String × PyVal)) (h : o n = HTTPOutcome.ok json) :
    callPersona o n p none =
      { result := [("success", PyVal.vBool true),
                   ("response", pyGetD json "response" (PyVal.vStr "")),
                   ("persona", pyGetD json "persona" (PyVal.vStr p)),
                   ("execution_time", pyGetD json "execution_time" (PyVal.vNum 0)),
                   ("raw_result", PyVal.vDict json)],
        cmgr := none, next := n + 1, log := [p] } := by
  simp [callPersona, h]

theorem var_validator_fail (o : Oracle) (n : Nat) (p : String) (c : Option ContextMgr)
    (h : isOkOutcome (o n) = false) :
    validateAndRouteRequest o n p c =
      Except.ok (callPersona o n "interface_validator" c) := by
  obtain ⟨msg, hm⟩ := callPersona_fail_shape o n "interface_validator" c h
  simp [validateAndRouteRequest, hm, pyIndex, alistFind, pyTruthy]

theorem var_validator_ok (o : Oracle) (n : Nat) (p : String)
    (json : List (String × PyVal)) (h : o n = HTTPOutcome.ok json) :
    validateAndRouteRequest o n p none =
      Except.ok { result := (callPersona o (n + 2) p none).result, cmgr := none,
                  next := n + 3, log := ["interface_validator", "queue_manager", p] } := by
  have hv := callPersona_ok_shape o n "interface_validator" json h
  simp [validateAndRouteRequest, hv, pyIndex, alistFind, pyTruthy,
    callPersona_next, callPersona_cmgr_none, callPersona_log]

/-- C10: in `validate_and_route_request`, a failed interface-validator call
short-circuits — the validation failure dict is returned and the target
persona is never called — while the queue-manager routing result is
discarded: once validation succeeds, the target persona is called and the
outcome of the run does not depend on the routing call's outcome at all. -/
theorem routing_result_discarded :
    (∀ (o : Oracle) (n : Nat) (p : String) (c : Option ContextMgr),
      isOkOutcome (o n) = false →
      validateAndRouteRequest o n p c =
        Except.ok (callPersona o n "interface_validator" c) ∧
      (callPersona o n "interface_validator" c).log = ["interface_validator"] ∧
      (p ≠ "interface_validator" → p ∉ (callPersona o n "interface_validator" c).log)) ∧
    (∀ (o o' : Oracle) (n : Nat) (p : String),
      (∀ k, k ≠ n + 1 → o k = o' k) →
      validateAndRouteRequest o n p none = validateAndRouteRequest o' n p none) ∧
    (∀ (o : Oracle) (n : Nat) (p : String) (json : List (String × PyVal)),
      o n = HTTPOutcome.ok json →
      validateAndRouteRequest o n p none =
        Except.ok { result := (callPersona o (n + 2) p none).result, cmgr := none,
                    next := n + 3, log := ["interface_validator", "queue_manager", p] }) := by
  refine ⟨fun o n p c h => ?_, fun o o' n p h => ?_, fun o n p json h => ?_⟩
  · refine ⟨var_validator_fail o n p c h, callPersona_log o n "interface_validator" c, ?_⟩
    intro hp hmem
    rw [callPersona_log] at hmem
    exact hp (List.mem_singleton.mp hmem)
  · have hn : o n = o' n := h n (by omega)
    have h2 : o (n + 2) = o' (n + 2) := h (n + 2) (by omega)
    cases ho : o n with
    | ok json =>
      rw [var_validator_ok o n p json ho, var_validator_ok o' n p json (hn ▸ ho),
        callPersona_congr o o' (n + 2) p none h2]
    | httpError status body =>
      have hf : isOkOutcome (o n) = false := by rw [ho]; rfl
      have hf' : isOkOutcome (o' n) = false := by rw [← hn, ho]; rfl
      rw [var_validator_fail o n p none hf, var_validator_fail o' n p none hf',
        callPersona_congr o o' n "interface_validator" none hn]
    | exc msg =>
      have hf : isOkOutcome (o n) = false := by rw [ho]; rfl
      have hf' : isOkOutcome (o' n) = false := by rw [← hn, ho]; rfl
      rw [var_validator_fail o n p none hf, var_validator_fail o' n p none hf',
        callPersona_congr o o' n "interface_validator" none hn]
  · exact var_validator_ok o n p json h

/-- An all-failure network: every request raises. -/
def oAllFail : Oracle := fun _ => HTTPOutcome.exc "connection refused"

/-- Witness for C10 at concrete inputs: with a failing network the validator
failure is returned and the developer persona is absent from the call log;
with a 200 validator response the target is reached at call index 2. -/
theorem routing_result_discarded_witness :
    (validateAndRouteRequest oAllFail 0 "developer" none =
      Except.ok (callPersona oAllFail 0 "interface_validator" none) ∧
     (callPersona oAllFail 0 "interface_validator" none).log = ["interface_validator"] ∧
     ("developer" ∉ (callPersona oAllFail 0 "interface_validator" none).log)) :=
  ⟨(routing_result_discarded.1 oAllFail 0 "developer" none rfl).1,
   (routing_result_discarded.1 oAllFail 0 "developer" none rfl).2.1,
   (routing_result_discarded.1 oAllFail 0 "developer" none rfl).2.2 (by decide)⟩

/-- The function `_call_persona_with_validation` raises `KeyError("persona_id")` whenever
its api_result is the HTTP-success dict: for a non-interface persona this
happens exactly when the validator call (index n) and the target call
(index n+2) both return 200. -/
theorem cpwv_http_success_raises (o : Oracle) (n : Nat) (p ph : String)
    (hp1 : p ≠ "interface_validator") (hp2 : p ≠ "queue_manager")
    (h0 : isOkOutcome (o n) = true) (h2 : isOkOutcome (o (n + 2)) = true) :
    callPersonaWithValidation o n p ph = Except.error (PyExc.keyError "persona_id") := by
  cases ho : o n with
  | httpError status body => rw [ho] at h0; simp [isOkOutcome] at h0
  | exc msg => rw [ho] at h0; simp [isOkOutcome] at h0
  | ok json =>
    cases ht : o (n + 2) with
    | httpError status body => rw [ht] at h2; simp [isOkOutcome] at h2
    | exc msg => rw [ht] at h2; simp [isOkOutcome] at h2
    | ok json2 =>
      have hvar := var_validator_ok o n p json ho
      have htgt := callPersona_ok_shape o (n + 2) p json2 ht
      simp [callPersonaWithValidation, hp1, hp2, hvar, htgt, pyIndex, alistFind, pyTruthy]

/-- C9 (amended): the success dict of `call_persona` carries the key
`persona` but never `persona_id`, so the success branch of
`_call_persona_with_validation` raises `KeyError` when it reaches an
HTTP-success dict (validator and target calls both 200); consequently
`process_requirement` catches the exception and returns `success: False`
whenever its first workflow step reaches the HTTP-success branch. -/
theorem success_branch_keyerror (o : Oracle) (n : Nat) (p ph input : String)
    (c : Option ContextMgr) (json : List (String × PyVal))
    (context : List (String × PyVal)) :
    (o n = HTTPOutcome.ok json →
      alistFind (callPersona o n p c).result "persona_id" = none ∧
      (alistFind (callPersona o n p c).result "persona").isSome = true) ∧
    (p ≠ "interface_validator" → p ≠ "queue_manager" →
      isOkOutcome (o n) = true → isOkOutcome (o (n + 2)) = true →
      callPersonaWithValidation o n p ph = Except.error (PyExc.keyError "persona_id")) ∧
    (isOkOutcome (o 0) = true → isOkOutcome (o 2) = true →
      alistFind (processRequirement o input context) "success" =
        some (PyVal.vBool false) ∧
      alistFind (processRequirement o input context) "error" =
        some (PyVal.vStr "persona_id")) := by
  refine ⟨fun h => ?_, fun hp1 hp2 h0 h2 => cpwv_http_success_raises o n p ph hp1 hp2 h0 h2,
    fun h0 h2 => ?_⟩
  · simp [callPersona, h, alistFind]
  · have hstep := cpwv_http_success_raises o 0 "requirement_concierge" "requirement_analysis"
      (by decide) (by decide) h0 h2
    simp only [processRequirement, hstep]
    constructor <;> simp [alistFind, excText]

/-- An all-success network: every request returns 200 with a fixed body. -/
def oAllOk : Oracle := fun _ => HTTPOutcome.ok [("response", PyVal.vStr "done")]

/-- Witness for C9 (amended) on the all-success network. -/
theorem success_branch_keyerror_witness :
    (alistFind (callPersona oAllOk 0 "developer" none).result "persona_id" = none ∧
      (alistFind (callPersona oAllOk 0 "developer" none).result "persona").isSome = true) ∧
    callPersonaWithValidation oAllOk 0 "developer" "development" =
      Except.error (PyExc.keyError "persona_id") ∧
    alistFind (processRequirement oAllOk "Add a dashboard" []) "success" =
      some (PyVal.vBool false) :=
  ⟨(success_branch_keyerror oAllOk 0 "developer" "development" "Add a dashboard" none
      [("response", PyVal.vStr "done")] []).1 rfl,
   (success_branch_keyerror oAllOk 0 "developer" "development" "Add a dashboard" none
      [("response", PyVal.vStr "done")] []).2.1 (by decide) (by decide) rfl rfl,
   ((success_branch_keyerror oAllOk 0 "developer" "development" "Add a dashboard" none
      [("response", PyVal.vStr "done")] []).2.2 rfl rfl).1⟩

/-- A network where only the very first request (the interface-validator call
of the first workflow step) returns 200 and every later request raises. -/
def oValidatorOnly : Oracle := fun k =>
  if k = 0 then HTTPOutcome.ok [("response", PyVal.vStr "validated")]
  else HTTPOutcome.exc "connection refused"

/-- C9 counterexample to the claim as stated: on `oValidatorOnly` a persona
call (the interface validator, call 0) succeeds at the HTTP level, yet the
run completes and `process_requirement` returns `success: True`, because only
validated target calls that themselves return 200 reach the KeyError branch. -/
theorem validator_only_success_run_cex :
    isOkOutcome (oValidatorOnly 0) = true ∧
    alistFind (processRequirement oValidatorOnly "Add a settings page" []) "success" =
      some (PyVal.vBool true) := by
  constructor
  · rfl
  · rfl

/-- The failed `PersonaResult` built by `_call_persona_with_validation` when
`api_result` is a failure dict with message `msg`. -/
def failedPersonaResult (p ph msg : String) : PersonaResult :=
  { persona_id := PyVal.vStr "unknown", persona_name := p, success := false,
    output_data := [("error", PyVal.vStr msg)], confidence := 0, processing_time := 0,
    metadata := [("phase", PyVal.vStr ph), ("validated", PyVal.vBool false)],
    validated := false }

/-- When the first network call of a step fails, the step returns a failed
`PersonaResult` (no exception), consuming exactly one call. -/
theorem cpwv_fail (o : Oracle) (n : Nat) (p ph : String)
    (h : isOkOutcome (o n) = false) :
    ∃ msg l, callPersonaWithValidation o n p ph =
      Except.ok (failedPersonaResult p ph msg, n + 1, l) := by
  by_cases hp : p = "interface_validator" ∨ p = "queue_manager"
  · obtain ⟨msg, hm⟩ := callPersona_fail_shape o n p none h
    refine ⟨msg, [p], ?_⟩
    simp [callPersonaWithValidation, hp, hm, pyIndex, alistFind, pyTruthy, pyGetD,
      failedPersonaResult]
  · obtain ⟨msg, hm⟩ := callPersona_fail_shape o n "interface_validator" none h
    have hvar := var_validator_fail o n p none h
    refine ⟨msg, ["interface_validator"], ?_⟩
    simp [callPersonaWithValidation, hp, hvar, hm, pyIndex, alistFind, pyTruthy, pyGetD,
      failedPersonaResult]

theorem runSteps_allFail (o : Oracle) (h : ∀ k, isOkOutcome (o k) = false) :
    ∀ (steps : List (String × String)) (n : Nat),
      ∃ rs l, runWorkflowSteps o n steps = Except.ok (rs, n + steps.length, l) ∧
        rs.map PersonaResult.persona_name = steps.map Prod.fst ∧
        rs.map PersonaResult.success = steps.map (fun _ => false) := by
  intro steps
  induction steps with
  | nil => exact fun n => ⟨[], [], by simp [runWorkflowSteps], rfl, rfl⟩
  | cons st rest ih =>
    intro n
    obtain ⟨p, ph⟩ := st
    obtain ⟨msg, l1, hstep⟩ := cpwv_fail o n p ph (h n)
    obtain ⟨rs, l, hrun, hnames, hsucc⟩ := ih (n + 1)
    refine ⟨failedPersonaResult p ph msg :: rs, l1 ++ l, ?_, ?_, ?_⟩
    · have harith : n + 1 + rest.length = n + (rest.length + 1) := by omega
      simp only [runWorkflowSteps, hstep, hrun, List.length_cons]
      rw [harith]
    · simp [failedPersonaResult, hnames]
    · simp [failedPersonaResult, hsucc]

theorem metricOf_fail (o : Oracle) (n : Nat) (e m : String)
    (h : isOkOutcome (o n) = false) : metricOf o n e m = Except.ok [] := by
  obtain ⟨msg, hm⟩ := callPersona_fail_shape o n e none h
  simp [metricOf, hm, pyIndex, alistFind, pyTruthy]

theorem metricOf_ok (o : Oracle) (n : Nat) (e m : String)
    (json : List (String × PyVal)) (h : o n = HTTPOutcome.ok json) :
    metricOf o n e m = Except.ok
      [(m, parseMetricResponse (strOfPyVal (pyGetD json "response" (PyVal.vStr ""))) m)] := by
  have hs := callPersona_ok_shape o n e json h
  simp [metricOf, hs, pyIndex, alistFind, pyTruthy]

theorem calcMetrics_allFail (o : Oracle) (n : Nat) (rs : List PersonaResult)
    (h : ∀ k, isOkOutcome (o k) = false) :
    calculateAllMetrics o n rs =
      Except.ok { metrics := [], next := n + 4,
                  log := ["functionality_metrics", "performance_metrics",
                          "stability_metrics", "scalability_metrics"] } := by
  simp [calculateAllMetrics,
    metricOf_fail o n "functionality_metrics" "functionality" (h n),
    metricOf_fail o (n + 1) "performance_metrics" "performance" (h (n + 1)),
    metricOf_fail o (n + 2) "stability_metrics" "stability" (h (n + 2)),
    metricOf_fail o (n + 3) "scalability_metrics" "scalability" (h (n + 3))]

/-- On an all-failure network every step records a failed `PersonaResult`,
execution reaches the end of every phase, and `process_requirement`
completes normally (workflow-level `success: True`) with all 1 + N step
results recorded and no exception. -/
theorem allFail_run_completes (o : Oracle) (input : String)
    (context : List (String × PyVal)) (steps : List (String × String)) (n : Nat)
    (h : ∀ k, isOkOutcome (o k) = false) :
    (∃ rs l, runWorkflowSteps o n steps = Except.ok (rs, n + steps.length, l) ∧
      rs.map PersonaResult.persona_name = steps.map Prod.fst ∧
      rs.map PersonaResult.success = steps.map (fun _ => false)) ∧
    alistFind (processRequirement o input context) "success" = some (PyVal.vBool true) ∧
    (∃ xs, alistFind (processRequirement o input context) "results" =
        some (PyVal.vList xs) ∧
      xs.length = 1 + (workflowSteps (selectWorkflowChannel
        (classifyRequirement input (initialWorkflowCtx input context))
        (initialWorkflowCtx input context))).length) := by
  refine ⟨runSteps_allFail o h steps n, ?_⟩
  obtain ⟨msg0, l0, hstep0⟩ :=
    cpwv_fail o 0 "requirement_concierge" "requirement_analysis" (h 0)
  obtain ⟨rs, l, hrun, hnames, hsucc⟩ := runSteps_allFail o h
    (workflowSteps (selectWorkflowChannel
      (classifyRequirement input (initialWorkflowCtx input context))
      (initialWorkflowCtx input context))) (0 + 1)
  have hcalc := calcMetrics_allFail o
    (0 + 1 + (workflowSteps (selectWorkflowChannel
      (classifyRequirement input (initialWorkflowCtx input context))
      (initialWorkflowCtx input context))).length)
    (failedPersonaResult "requirement_concierge" "requirement_analysis" msg0 :: rs) h
  have hlen : rs.length = (workflowSteps (selectWorkflowChannel
      (classifyRequirement input (initialWorkflowCtx input context))
      (initialWorkflowCtx input context))).length := by
    have := congrArg List.length hnames
    simpa using this
  simp only [processRequirement, executeWorkflowWithPhases, hstep0, hrun, hcalc]
  constructor
  · simp [alistFind]
  · refine ⟨serializeResult (failedPersonaResult "requirement_concierge"
      "requirement_analysis" msg0) :: rs.map serializeResult, ?_, ?_⟩
    · simp [alistFind]
    · simp only [List.length_cons, List.length_map, hlen]
      omega

/-- A network alternating non-200 responses and raised exceptions. -/
def oMixedFail : Oracle := fun k =>
  if k % 2 = 0 then HTTPOutcome.httpError 503 "unavailable" else HTTPOutcome.exc "timeout"

theorem oMixedFail_fails : ∀ k, isOkOutcome (oMixedFail k) = false := by
  intro k
  by_cases hk : k % 2 = 0 <;> simp [oMixedFail, isOkOutcome, hk]

theorem exists_ok_of_isOk (x : HTTPOutcome) (h : isOkOutcome x = true) :
    ∃ json, x = HTTPOutcome.ok json := by
  cases x with
  | ok json => exact ⟨json, rfl⟩
  | httpError status body => simp [isOkOutcome] at h
  | exc msg => simp [isOkOutcome] at h

/-- The `response` field of an HTTP outcome (as read by the 200 branch). -/
def respOf : HTTPOutcome → PyVal
  | HTTPOutcome.ok json => pyGetD json "response" (PyVal.vStr "")
  | _ => PyVal.vStr ""

/-- C6 (amended): when all four metric persona calls return 200 the output
map contains exactly the four named metrics in order — functionality,
performance, stability, scalability — each one parsed from the free-text
reply of the corresponding persona endpoint (the endpoints called, in
order, are the four `*_metrics` personas). -/
theorem metrics_map_exactly_successful (o : Oracle) (n : Nat)
    (workflow_results : List PersonaResult)
    (h0 : isOkOutcome (o n) = true) (h1 : isOkOutcome (o (n + 1)) = true)
    (h2 : isOkOutcome (o (n + 2)) = true) (h3 : isOkOutcome (o (n + 3)) = true) :
    ∃ m, calculateAllMetrics o n workflow_results = Except.ok m ∧
      m.metrics =
        [("functionality", parseMetricResponse (strOfPyVal (respOf (o n))) "functionality"),
         ("performance", parseMetricResponse (strOfPyVal (respOf (o (n + 1)))) "performance"),
         ("stability", parseMetricResponse (strOfPyVal (respOf (o (n + 2)))) "stability"),
         ("scalability", parseMetricResponse (strOfPyVal (respOf (o (n + 3)))) "scalability")] ∧
      m.metrics.map Prod.fst = ["functionality", "performance", "stability", "scalability"] ∧
      m.log = ["functionality_metrics", "performance_metrics",
               "stability_metrics", "scalability_metrics"] := by
  obtain ⟨j0, hj0⟩ := exists_ok_of_isOk (o n) h0
  obtain ⟨j1, hj1⟩ := exists_ok_of_isOk (o (n + 1)) h1
  obtain ⟨j2, hj2⟩ := exists_ok_of_isOk (o (n + 2)) h2
  obtain ⟨j3, hj3⟩ := exists_ok_of_isOk (o (n + 3)) h3
  have hcalc : calculateAllMetrics o n workflow_results = Except.ok
      { metrics :=
          [("functionality",
            parseMetricResponse (strOfPyVal (pyGetD j0 "response" (PyVal.vStr ""))) "functionality"),
           ("performance",
            parseMetricResponse (strOfPyVal (pyGetD j1 "response" (PyVal.vStr ""))) "performance"),
           ("stability",
            parseMetricResponse (strOfPyVal (pyGetD j2 "response" (PyVal.vStr ""))) "stability"),
           ("scalability",
            parseMetricResponse (strOfPyVal (pyGetD j3 "response" (PyVal.vStr ""))) "scalability")],
        next := n + 4,
        log := ["functionality_metrics", "performance_metrics",
                "stability_metrics", "scalability_metrics"] } := by
    simp [calculateAllMetrics,
      metricOf_ok o n "functionality_metrics" "functionality" j0 hj0,
      metricOf_ok o (n + 1) "performance_metrics" "performance" j1 hj1,
      metricOf_ok o (n + 2) "stability_metrics" "stability" j2 hj2,
      metricOf_ok o (n + 3) "scalability_metrics" "scalability" j3 hj3]
  refine ⟨_, hcalc, ?_, by simp, rfl⟩
  simp [hj0, hj1, hj2, hj3, respOf]

/-- Witness for C6 (amended) on the all-success network. -/
theorem metrics_map_exactly_successful_witness :
    Except.map (fun m => m.metrics.map Prod.fst) (calculateAllMetrics oAllOk 0 []) =
      Except.ok ["functionality", "performance", "stability", "scalability"] ∧
    Except.map MetricsRet.log (calculateAllMetrics oAllOk 0 []) =
      Except.ok ["functionality_metrics", "performance_metrics",
                 "stability_metrics", "scalability_metrics"] := by
  obtain ⟨m, hm, _hentries, hkeys, hlog⟩ :=
    metrics_map_exactly_successful oAllOk 0 [] rfl rfl rfl rfl
  rw [hm]
  exact ⟨by simp [Except.map, hkeys], by simp [Except.map, hlog]⟩

/-- C6 counterexample to the claim as stated: when the metric persona calls
fail, the returned map is empty — it does not contain the metric
"functionality" (nor the other three) — even though all four endpoints were
called. -/
theorem metrics_map_missing_on_failure :
    Except.map (fun m => alistFind m.metrics "functionality")
      (calculateAllMetrics oAllFail 0 []) = Except.ok none ∧
    Except.map MetricsRet.metrics (calculateAllMetrics oAllFail 0 []) = Except.ok [] ∧
    Except.map MetricsRet.log (calculateAllMetrics oAllFail 0 []) =
      Except.ok ["functionality_metrics", "performance_metrics",
                 "stability_metrics", "scalability_metrics"] := by
  refine ⟨rfl, rfl, rfl⟩

/-- A validated target call that fails (non-200 or exception) after a 200
validator response still yields a recorded failed `PersonaResult` — it does
not abort — consuming three network calls. -/
theorem cpwv_validated_target_fail (o : Oracle) (n : Nat) (p ph : String)
    (json : List (String × PyVal))
    (hp1 : p ≠ "interface_validator") (hp2 : p ≠ "queue_manager")
    (hok : o n = HTTPOutcome.ok json) (hfail : isOkOutcome (o (n + 2)) = false) :
    ∃ msg, callPersonaWithValidation o n p ph =
      Except.ok (failedPersonaResult p ph msg, n + 3,
        ["interface_validator", "queue_manager", p]) := by
  obtain ⟨msg, hm⟩ := callPersona_fail_shape o (n + 2) p none hfail
  have hvar := var_validator_ok o n p json hok
  refine ⟨msg, ?_⟩
  simp [callPersonaWithValidation, hp1, hp2, hvar, hm, pyIndex, alistFind, pyTruthy,
    pyGetD, failedPersonaResult]

/-- Every workflow step, on every network, either returns a failed
`PersonaResult` for its persona (and execution can continue) or raises
exactly `KeyError("persona_id")`; a step never returns a successful result
and never raises anything else. -/
theorem cpwv_dichotomy (o : Oracle) (n : Nat) (p ph : String) :
    (∃ r n' l, callPersonaWithValidation o n p ph = Except.ok (r, n', l) ∧
      r.success = false ∧ r.persona_name = p) ∨
    callPersonaWithValidation o n p ph = Except.error (PyExc.keyError "persona_id") := by
  cases hx : isOkOutcome (o n) with
  | false =>
    obtain ⟨msg, l, h⟩ := cpwv_fail o n p ph hx
    exact Or.inl ⟨failedPersonaResult p ph msg, n + 1, l, h, rfl, rfl⟩
  | true =>
    obtain ⟨json, hj⟩ := exists_ok_of_isOk (o n) hx
    by_cases hp : p = "interface_validator" ∨ p = "queue_manager"
    · have hs := callPersona_ok_shape o n p json hj
      exact Or.inr (by simp [callPersonaWithValidation, hp, hs, pyIndex, alistFind, pyTruthy])
    · push_neg at hp
      cases ht : isOkOutcome (o (n + 2)) with
      | true => exact Or.inr (cpwv_http_success_raises o n p ph hp.1 hp.2 hx ht)
      | false =>
        obtain ⟨msg, h⟩ := cpwv_validated_target_fail o n p ph json hp.1 hp.2 hj ht
        exact Or.inl ⟨failedPersonaResult p ph msg, n + 3,
          ["interface_validator", "queue_manager", p], h, rfl, rfl⟩

/-- Every run of a step list, on every network, either completes with one
recorded failed result per step (names in order) or aborts with
`KeyError("persona_id")`. -/
theorem runSteps_dichotomy (o : Oracle) :
    ∀ (steps : List (String × String)) (n : Nat),
      (∃ rs n' l, runWorkflowSteps o n steps = Except.ok (rs, n', l) ∧
        rs.map PersonaResult.persona_name = steps.map Prod.fst ∧
        rs.map PersonaResult.success = steps.map (fun _ => false)) ∨
      runWorkflowSteps o n steps = Except.error (PyExc.keyError "persona_id") := by
  intro steps
  induction steps with
  | nil => exact fun n => Or.inl ⟨[], n, [], by simp [runWorkflowSteps], rfl, rfl⟩
  | cons st rest ih =>
    intro n
    obtain ⟨p, ph⟩ := st
    rcases cpwv_dichotomy o n p ph with ⟨r, n1, l1, hstep, hsucc, hname⟩ | hstep
    · rcases ih n1 with ⟨rs, n2, l2, hrun, hnames, hsuccs⟩ | hrun
      · refine Or.inl ⟨r :: rs, n2, l1 ++ l2, ?_, ?_, ?_⟩
        · simp only [runWorkflowSteps, hstep, hrun]
        · simp [hname, hnames]
        · simp [hsucc, hsuccs]
      · exact Or.inr (by simp only [runWorkflowSteps, hstep, hrun])
    · exact Or.inr (by simp only [runWorkflowSteps, hstep])

theorem metricOf_total (o : Oracle) (n : Nat) (e mn : String) :
    ∃ l, metricOf o n e mn = Except.ok l := by
  cases hx : isOkOutcome (o n) with
  | false => exact ⟨[], metricOf_fail o n e mn hx⟩
  | true =>
    obtain ⟨json, hj⟩ := exists_ok_of_isOk (o n) hx
    exact ⟨_, metricOf_ok o n e mn json hj⟩

theorem calcMetrics_total (o : Oracle) (n : Nat) (rs : List PersonaResult) :
    ∃ m, calculateAllMetrics o n rs = Except.ok m := by
  obtain ⟨l1, h1⟩ := metricOf_total o n "functionality_metrics" "functionality"
  obtain ⟨l2, h2⟩ := metricOf_total o (n + 1) "performance_metrics" "performance"
  obtain ⟨l3, h3⟩ := metricOf_total o (n + 2) "stability_metrics" "stability"
  obtain ⟨l4, h4⟩ := metricOf_total o (n + 3) "scalability_metrics" "scalability"
  refine ⟨{ metrics := l1 ++ l2 ++ l3 ++ l4, next := n + 4,
            log := ["functionality_metrics", "performance_metrics",
                    "stability_metrics", "scalability_metrics"] }, ?_⟩
  simp [calculateAllMetrics, h1, h2, h3, h4]

/-- On every network, `process_requirement` either completes with
`success: True` and one recorded result per executed step, or returns the
caught-`KeyError` dict with `success: False`; it never lets an exception
escape. -/
theorem processRequirement_outcomes (o : Oracle) (input : String)
    (context : List (String × PyVal)) :
    (∃ xs, alistFind (processRequirement o input context) "success" =
        some (PyVal.vBool true) ∧
      alistFind (processRequirement o input context) "results" =
        some (PyVal.vList xs) ∧
      xs.length = 1 + (workflowSteps (selectWorkflowChannel
        (classifyRequirement input (initialWorkflowCtx input context))
        (initialWorkflowCtx input context))).length) ∨
    (alistFind (processRequirement o input context) "success" =
        some (PyVal.vBool false) ∧
      alistFind (processRequirement o input context) "error" =
        some (PyVal.vStr "persona_id")) := by
  rcases cpwv_dichotomy o 0 "requirement_concierge" "requirement_analysis" with
    ⟨r0, n1, l0, hstep, _, _⟩ | hstep
  · rcases runSteps_dichotomy o (workflowSteps (selectWorkflowChannel
        (classifyRequirement input (initialWorkflowCtx input context))
        (initialWorkflowCtx input context))) n1 with
      ⟨rs, n2, l2, hrun, hnames, _⟩ | hrun
    · obtain ⟨m, hm⟩ := calcMetrics_total o n2 (r0 :: rs)
      have hlen : rs.length = (workflowSteps (selectWorkflowChannel
          (classifyRequirement input (initialWorkflowCtx input context))
          (initialWorkflowCtx input context))).length := by
        have := congrArg List.length hnames
        simpa using this
      refine Or.inl ⟨serializeResult r0 :: rs.map serializeResult, ?_, ?_, ?_⟩
      · simp only [processRequirement, executeWorkflowWithPhases, hstep, hrun, hm]
        simp [alistFind]
      · simp only [processRequirement, executeWorkflowWithPhases, hstep, hrun, hm]
        simp [alistFind]
      · simp only [List.length_cons, List.length_map, hlen]
        omega
    · refine Or.inr ⟨?_, ?_⟩ <;>
        · simp only [processRequirement, executeWorkflowWithPhases, hstep, hrun]
          simp [alistFind, excText]
  · refine Or.inr ⟨?_, ?_⟩ <;>
      · simp only [processRequirement, hstep]
        simp [alistFind, excText]

/-- C3 (amended): a non-200 response or an exception during a call is caught
and the step's `PersonaResult` is marked failed, and failed calls never
abort — execution continues past any number of failed calls, including a
target call that fails after its validation call returned 200.  Execution of
the remaining phases is not unconditional, however: a step whose validated
target call returns HTTP 200 raises `KeyError("persona_id")` and aborts all
remaining phases with no results recorded.  `process_requirement` catches
that exception, so the caller sees either a completed run — one recorded
result per step, every one failed, only per-step boolean flags — or a
`success: False` error dict; never an exception.  On an all-failure network
the run always completes with all results recorded. -/
theorem failed_calls_recorded_or_keyerror_abort :
    (∀ (o : Oracle) (n : Nat) (p ph : String) (json : List (String × PyVal)),
      p ≠ "interface_validator" → p ≠ "queue_manager" →
      o n = HTTPOutcome.ok json → isOkOutcome (o (n + 2)) = false →
      ∃ msg, callPersonaWithValidation o n p ph =
        Except.ok (failedPersonaResult p ph msg, n + 3,
          ["interface_validator", "queue_manager", p])) ∧
    (∀ (o : Oracle) (n : Nat) (p ph : String),
      (∃ r n' l, callPersonaWithValidation o n p ph = Except.ok (r, n', l) ∧
        r.success = false ∧ r.persona_name = p) ∨
      callPersonaWithValidation o n p ph = Except.error (PyExc.keyError "persona_id")) ∧
    (∀ (o : Oracle) (steps : List (String × String)) (n : Nat),
      (∃ rs n' l, runWorkflowSteps o n steps = Except.ok (rs, n', l) ∧
        rs.map PersonaResult.persona_name = steps.map Prod.fst ∧
        rs.map PersonaResult.success = steps.map (fun _ => false)) ∨
      runWorkflowSteps o n steps = Except.error (PyExc.keyError "persona_id")) ∧
    (∀ (o : Oracle) (input : String) (context : List (String × PyVal)),
      (∃ xs, alistFind (processRequirement o input context) "success" =
          some (PyVal.vBool true) ∧
        alistFind (processRequirement o input context) "results" =
          some (PyVal.vList xs) ∧
        xs.length = 1 + (workflowSteps (selectWorkflowChannel
          (classifyRequirement input (initialWorkflowCtx input context))
          (initialWorkflowCtx input context))).length) ∨
      (alistFind (processRequirement o input context) "success" =
          some (PyVal.vBool false) ∧
        alistFind (processRequirement o input context) "error" =
          some (PyVal.vStr "persona_id"))) ∧
    (∀ (o : Oracle) (input : String) (context : List (String × PyVal))
      (steps : List (String × String)) (n : Nat),
      (∀ k, isOkOutcome (o k) = false) →
      (∃ rs l, runWorkflowSteps o n steps = Except.ok (rs, n + steps.length, l) ∧
        rs.map PersonaResult.persona_name = steps.map Prod.fst ∧
        rs.map PersonaResult.success = steps.map (fun _ => false)) ∧
      alistFind (processRequirement o input context) "success" =
        some (PyVal.vBool true) ∧
      (∃ xs, alistFind (processRequirement o input context) "results" =
          some (PyVal.vList xs) ∧
        xs.length = 1 + (workflowSteps (selectWorkflowChannel
          (classifyRequirement input (initialWorkflowCtx input context))
          (initialWorkflowCtx input context))).length)) :=
  ⟨fun o n p ph json hp1 hp2 hok hfail =>
      cpwv_validated_target_fail o n p ph json hp1 hp2 hok hfail,
   cpwv_dichotomy,
   fun o => runSteps_dichotomy o,
   processRequirement_outcomes,
   allFail_run_completes⟩

/-- A network whose first call returns 200 and whose later calls all fail:
a validated target call fails after successful validation. -/
def oOkThenFail : Oracle := fun k =>
  if k = 0 then HTTPOutcome.ok [("response", PyVal.vStr "approved")]
  else HTTPOutcome.exc "timeout"

/-- Witness for C3 (amended): a target call failing after a 200 validation
is recorded as a failed result for the target persona (three calls
consumed, no abort), and on an all-failure network the whole run completes
with `success: True`. -/
theorem failed_calls_recorded_or_keyerror_abort_witness :
    Except.map (fun t => (t.1.success, t.1.persona_name, t.2.1))
      (callPersonaWithValidation oOkThenFail 0 "developer" "development") =
      Except.ok (false, "developer", 3) ∧
    alistFind (processRequirement oMixedFail "Fix login bug" []) "success" =
      some (PyVal.vBool true) := by
  constructor
  · obtain ⟨msg, hmsg⟩ := failed_calls_recorded_or_keyerror_abort.1 oOkThenFail 0
      "developer" "development" [("response", PyVal.vStr "approved")]
      (by decide) (by decide) rfl rfl
    rw [hmsg]
    rfl
  · exact (failed_calls_recorded_or_keyerror_abort.2.2.2.2 oMixedFail "Fix login bug"
      [] [] 0 oMixedFail_fails).2.1

/-- A network whose first call fails and whose later calls all return 200. -/
def oFailThenOk : Oracle := fun k =>
  if k = 0 then HTTPOutcome.exc "connection refused"
  else HTTPOutcome.ok [("response", PyVal.vStr "done")]

/-- C3 counterexample to the claim as stated: on `oFailThenOk` the first
call fails and is duly caught and recorded as a failed result, yet the
remaining phases do not continue unconditionally — the next step's validated
target call returns 200, raises `KeyError("persona_id")`, and aborts the
rest of the run: the "operations" step is never executed, no results are
recorded (`process_requirement` returns an error dict with no results list
and `success: False`). -/
theorem failed_call_then_abort_cex :
    isOkOutcome (oFailThenOk 0) = false ∧
    callPersonaWithValidation oFailThenOk 0 "developer" "development" =
      Except.ok (failedPersonaResult "developer" "development" "connection refused", 1,
        ["interface_validator"]) ∧
    runWorkflowSteps oFailThenOk 0
      [("developer", "development"), ("tester", "testing"), ("operations", "operations")] =
      Except.error (PyExc.keyError "persona_id") ∧
    alistFind (processRequirement oFailThenOk "Add a dashboard" []) "success" =
      some (PyVal.vBool false) ∧
    alistFind (processRequirement oFailThenOk "Add a dashboard" []) "results" = none := by
  refine ⟨rfl, rfl, rfl, rfl, rfl⟩
